import Mathlib

/-!
Shallow embedding of the rick-morty-sre-app core (the resilient upstream
client, the pagination crawler, and the sync orchestrator) together with
proofs of its specified properties.

Source files embedded:
- app/rick_morty_client.py : transport + retry wiring, earth filter,
  next-page extraction, the crawl loop
- app/services.py          : sync_characters_from_api, get_character_by_id
- app/cache.py             : cache get/set/clear_pattern key handling
- app/models.py            : Character row and response records

Conventions: machine integers are Nat/Int; timestamps are Nat seconds;
fallible Python code returns Except/Option; the async layer is modelled by
explicit state passing (the crawl and sync are sequential in the source).
Raw JSON dicts that the source immediately validates into pydantic records
are modelled as already-structured records; percent-decoding inside
parse_qs and escaping inside json.dumps are left out, which is noted at the
relevant definitions and affects none of the stated properties.
-/

namespace RickMorty

/-! ### Small string utilities (ASCII models of the Python primitives) -/

/-- Model of the test performed by `needle in hay` for Python strings:
`isSubstringAt needle hay` is true when `needle` is an initial segment of
`hay`. -/
def isSubstringAt : List Char → List Char → Bool
  | [], _ => true
  | _ :: _, [] => false
  | n :: ns, h :: hs => n == h && isSubstringAt ns hs

/-- Model of Python `needle in hay` (substring containment). -/
def hasSubstr (needle : List Char) : List Char → Bool
  | [] => isSubstringAt needle []
  | h :: hs => isSubstringAt needle (h :: hs) || hasSubstr needle hs

/-- Model of Python `str.lower()` restricted to ASCII (every string the
program compares is ASCII). -/
def pyLower (s : String) : String := String.mk (s.data.map Char.toLower)

/-- All-decimal-digit parse: `pyDigits? l` is the value of `l` read as a
nonempty string of digits. -/
def pyDigits? : List Char → Option Nat
  | [] => none
  | l => if l.all Char.isDigit
         then some (l.foldl (fun acc c => acc * 10 + (c.toNat - 48)) 0)
         else none

/-- Model of Python `str.strip()` as `int()` applies it: drop whitespace
from both ends. -/
def pyStrip (l : List Char) : List Char :=
  ((l.dropWhile Char.isWhitespace).reverse.dropWhile Char.isWhitespace).reverse

/-- Model of Python `int(s)` on a string: strips surrounding whitespace,
allows one leading sign, then requires nonempty digits (digit-group
underscores are not modelled; no call site produces them). `none` models
the `ValueError` that `_extract_next_page_number` catches. -/
def pyInt? (s : String) : Option Int :=
  match pyStrip s.data with
  | '-' :: rest => (pyDigits? rest).map (fun n => -(n : Int))
  | '+' :: rest => (pyDigits? rest).map (fun n => (n : Int))
  | l => (pyDigits? l).map (fun n => (n : Int))

/-! ### Redis glob matching (cache.clear_pattern key selection)

The patterns the program uses are `characters:*` and `character_stats`;
the `[...]` character-class and backslash-escape forms of the redis glob
language are not modelled because no call site uses them. -/

/-- Suffix search used by the `*` wildcard: does `f` accept some suffix of
the key? -/
def anySuffix (f : List Char → Bool) : List Char → Bool
  | [] => f []
  | c :: ks => f (c :: ks) || anySuffix f ks

/-- Redis-style glob matcher, curried on the pattern: `*` matches any
sequence, `?` matches one character, anything else matches itself. -/
def globMatchFn : List Char → (List Char → Bool)
  | [] => fun k => k.isEmpty
  | c :: ps =>
    let rest := globMatchFn ps
    if c = '*' then anySuffix rest
    else fun k =>
      match k with
      | [] => false
      | kc :: ks => (c == '?' || c == kc) && rest ks

/-- Does glob pattern `p` match key `k`? (`redis KEYS` selection used by
`CacheManager.clear_pattern`.) -/
def globMatch (p k : List Char) : Bool := globMatchFn p k

/-! ### Data model (app/models.py) -/

/-- CharacterOrigin pydantic model. -/
structure CharacterOrigin where
  name : String
  url : String
deriving Repr, DecidableEq

/-- CharacterLocation pydantic model. -/
structure CharacterLocation where
  name : String
  url : String
deriving Repr, DecidableEq

/-- CharacterResponse pydantic model: one upstream record, already
validated (the source validates raw dicts into this shape and drops
records that fail validation, see filter_earth_characters). The upstream
`created` timestamp is a Nat-second clock. -/
structure CharacterResponse where
  id : Nat
  name : String
  status : String
  species : String
  type : String
  gender : String
  origin : CharacterOrigin
  location : CharacterLocation
  image : String
  episode : List String
  url : String
  created : Nat
deriving Repr, DecidableEq

/-- Character database row (SQLAlchemy model in app/models.py):
`created_at` and `updated_at` are the storage-owned bookkeeping
timestamps. -/
structure CharacterRow where
  id : Nat
  name : String
  status : String
  species : String
  type : String
  gender : String
  origin_name : String
  origin_url : String
  location_name : String
  location_url : String
  image_url : String
  episode_urls : String
  api_url : String
  created_at : Nat
  updated_at : Nat
deriving Repr, DecidableEq

/-- FilteredCharacterResponse pydantic model (the read-side projection). -/
structure FilteredCharacterResponse where
  id : Nat
  name : String
  status : String
  species : String
  origin_name : String
  image_url : String
  created_at : Nat
deriving Repr, DecidableEq

/-! ### Client-side earth filter (RickMortyClient._filter_earth_characters) -/

/-- The filter predicate of `_filter_earth_characters`: the lowercased
origin name contains the substring "earth". -/
def earthOrigin (c : CharacterResponse) : Bool :=
  hasSubstr "earth".data (pyLower c.origin.name).data

/-- RickMortyClient._filter_earth_characters: keeps, in order, the
characters whose origin name contains "earth" case-insensitively. In the
source the input is a list of raw dicts and a record failing
CharacterResponse validation is logged and dropped; records here are
already validated, so that drop branch is unreachable in the model. -/
def filter_earth_characters (characters : List CharacterResponse) :
    List CharacterResponse :=
  characters.filter earthOrigin

/-! ### Next-page extraction (RickMortyClient._extract_next_page_number)

urlparse / parse_qs are modelled for the fragment the source exercises:
fragment split on the first `#`, query after the first `?`, fields split
on `&`, first `=` separates name from value, blank values and fields
without `=` are dropped (parse_qs defaults), `+` becomes a space.
Percent-decoding is not modelled; it is irrelevant to the properties
proved, which only constrain the parsed page number against the current
page. -/

/-- Characters strictly before the first occurrence of `sep`. -/
def takeUntil (sep : Char) (l : List Char) : List Char :=
  l.takeWhile (· ≠ sep)

/-- Characters strictly after the first occurrence of `sep` (empty when
`sep` is absent). -/
def dropThrough (sep : Char) (l : List Char) : List Char :=
  (l.dropWhile (· ≠ sep)).drop 1

/-- Model of `urlparse(url).query`: drop the fragment (after the first
`#`), then keep what follows the first `?`. -/
def urlQuery (url : String) : List Char :=
  dropThrough '?' (takeUntil '#' url.data)

/-- Python `s.replace('+', ' ')` applied by parse_qs to names and values. -/
def plusToSpace (l : List Char) : List Char :=
  l.map (fun c => if c = '+' then ' ' else c)

/-- One `name=value` field of a query string, parse_qs defaults
(keep_blank_values=False): empty fields, fields without `=` and fields
with an empty value yield nothing. -/
def parseQsPair (nv : List Char) : Option (String × String) :=
  if nv.isEmpty then none
  else if nv.all (· ≠ '=') then none
  else
    let value := dropThrough '=' nv
    if value.isEmpty then none
    else some (String.mk (plusToSpace (takeUntil '=' nv)),
               String.mk (plusToSpace value))

/-- Model of `parse_qs` flattened to its field list in encounter order;
`parse_qs(q)["page"][0]` is the value of the first `page` field. -/
def parseQsl (query : List Char) : List (String × String) :=
  (query.splitOn '&').filterMap parseQsPair

/-- First value bound to `key`, i.e. `parse_qs(query).get(key, default)[0]`
before the default is applied. -/
def firstQueryParam (query : List Char) (key : String) : Option String :=
  ((parseQsl query).find? (fun p => p.1 == key)).map (·.2)

/-- One page of the upstream list response: the fields of `info` the
client reads (`next`; `count`/`pages`/`prev` are untouched by the crawl)
and the `results` list, already validated (see filter_earth_characters).
A JSON-null `next` is `none`. -/
structure PageInfo where
  next : Option String
deriving Repr, DecidableEq

/-- Raw JSON payload of `GET /character` as the crawler consumes it. -/
structure PageData where
  info : PageInfo
  results : List CharacterResponse
deriving Repr, DecidableEq

/-- RickMortyClient._extract_next_page_number: `none` when the next link
is absent or falsy, when `int()` on the page parameter fails, or when the
parsed number is not strictly greater than the current page; a missing
`page` parameter defaults to `int(0)` (the `[0]` default list). -/
def extract_next_page_number (data : PageData) (current_page : Int) :
    Option Int :=
  match data.info.next with
  | none => none
  | some link =>
    if link = "" then none
    else
      match (match firstQueryParam (urlQuery link) "page" with
             | none => some (0 : Int)
             | some s => pyInt? s) with
      | none => none
      | some n => if n ≤ current_page then none else some n

/-! ### The crawl (RickMortyClient.get_all_filtered_characters) -/

/-- Outcome of one `get_characters` page fetch as the crawl loop observes
it: a payload, a `RickMortyAPIError` (transport failure after the
resilience wrapper, or circuit open), or any other exception — both error
arms break the loop in the source. -/
inductive FetchResult where
  | ok (data : PageData)
  | apiError (msg : String)
  | otherError (msg : String)
deriving Repr, DecidableEq

/-- RickMortyClient.get_all_filtered_characters, with the page fetch
abstracted as an oracle `fetch` from page number to outcome and the
`while True` loop unrolled on fuel (the loop has no intrinsic bound: a
server advertising ever-increasing pages keeps it running, so fuel
exhaustion models that unbounded continuation, never an exception). The
function returns its accumulator on a fetch error, on an empty `results`,
and on a `none` from extract_next_page_number; its Lean type shows the
contract that it never raises. -/
def get_all_filtered_characters (fetch : Int → FetchResult) :
    Nat → Int → List CharacterResponse → List CharacterResponse
  | 0, _, acc => acc
  | fuel + 1, page, acc =>
    match fetch page with
    | .apiError _ => acc
    | .otherError _ => acc
    | .ok data =>
      if data.results.isEmpty then acc
      else
        let acc2 := acc ++ filter_earth_characters data.results
        match extract_next_page_number data page with
        | none => acc2
        | some p2 => get_all_filtered_characters fetch fuel p2 acc2

/-! ### Cache (app/cache.py key handling)

Values cached by the service layer: a single FilteredCharacterResponse
(get_character_by_id), or a listing page with its total (get_characters).
Redis state is a finite association list from full key (namespace applied)
to value and remaining TTL in seconds. -/

/-- A cached value, by producing call site. -/
inductive CacheVal where
  | charEntry (c : FilteredCharacterResponse)
  | pageEntry (cs : List FilteredCharacterResponse) (total : Nat)
deriving Repr, DecidableEq

/-- Redis contents: full key, value, TTL seconds. -/
structure Cache where
  entries : List (String × CacheVal × Nat)
deriving Repr, DecidableEq

/-- settings.cache_prefix, prepended to every key and pattern by
CacheManager. -/
def cacheNamespace : String := "rickmorty:"

/-- CacheManager.get: lookup under the namespaced key. -/
def cacheEntry (c : Cache) (key : String) : Option (CacheVal × Nat) :=
  (c.entries.find? (fun e => e.1 == cacheNamespace ++ key)).map (·.2)

/-- CacheManager.set: `setex` stores the value under the namespaced key
with the given TTL, replacing any previous entry for that key. -/
def cacheSet (c : Cache) (key : String) (v : CacheVal) (ttl : Nat) : Cache :=
  ⟨c.entries.filter (fun e => e.1 != cacheNamespace ++ key)
     ++ [(cacheNamespace ++ key, v, ttl)]⟩

/-- CacheManager.clear_pattern: delete every key matching the namespaced
glob pattern (`KEYS` + `DEL`). -/
def clear_pattern (c : Cache) (pat : String) : Cache :=
  ⟨c.entries.filter
     (fun e => !(globMatch (cacheNamespace ++ pat).data e.1.data))⟩

/-! ### Sync orchestrator (CharacterService.sync_characters_from_api) -/

/-- Simple model of `json.dumps(list_of_strings)` (string escaping not
modelled; episode URLs contain none): used for the episode_urls column. -/
def jsonDumpsList (l : List String) : String :=
  "[" ++ String.intercalate ", " (l.map (fun s => "\x22" ++ s ++ "\x22")) ++ "]"

/-- `db.execute(select(Character).where(Character.id == id))` followed by
`scalar_one_or_none()`: the row with that primary key, when present. -/
def findCharacter (rows : List CharacterRow) (characterId : Nat) :
    Option CharacterRow :=
  rows.find? (fun r => r.id == characterId)

/-- The in-place update branch of the sync loop: every upstream-sourced
column is overwritten and `updated_at` is refreshed; `id` and
`created_at` are untouched. -/
def updateRow (r : CharacterRow) (c : CharacterResponse) (now : Nat) :
    CharacterRow :=
  { r with
    name := c.name, status := c.status, species := c.species,
    type := c.type, gender := c.gender,
    origin_name := c.origin.name, origin_url := c.origin.url,
    location_name := c.location.name, location_url := c.location.url,
    image_url := c.image, episode_urls := jsonDumpsList c.episode,
    api_url := c.url, updated_at := now }

/-- The insert branch: a fresh row whose bookkeeping timestamps take the
server defaults (both `now`). -/
def newRow (c : CharacterResponse) (now : Nat) : CharacterRow :=
  { id := c.id, name := c.name, status := c.status, species := c.species,
    type := c.type, gender := c.gender,
    origin_name := c.origin.name, origin_url := c.origin.url,
    location_name := c.location.name, location_url := c.location.url,
    image_url := c.image, episode_urls := jsonDumpsList c.episode,
    api_url := c.url, created_at := now, updated_at := now }

/-- One iteration of the sync loop on the session's working row set:
update the row with the record's id when it exists (ids are unique: id is
the primary key), otherwise append a new row (`db.add`; autoflush makes it
visible to later lookups in the same batch). -/
def upsertOne (rows : List CharacterRow) (c : CharacterResponse) (now : Nat) :
    List CharacterRow :=
  match findCharacter rows c.id with
  | some _ => rows.map (fun r => if r.id == c.id then updateRow r c now else r)
  | none => rows ++ [newRow c now]

/-- Result of one sync call: the synced count, or the exception the
`except` block re-raises after rolling back (the spec's SyncError). -/
inductive SyncResult where
  | ok (count : Nat)
  | error (msg : String)
deriving Repr, DecidableEq

/-- CharacterService.sync_characters_from_api, given the crawl result
(get_all_filtered_characters never raises, so its output is a plain
list), the committed row set, the cache, whether `db.commit()` succeeds,
and the clock. An empty crawl returns 0 before any session work. The loop
upserts each record into the session (per-record exceptions are caught
and skipped in the source; no arm of the pure model raises, so
synced_count is the record count); commit success publishes the working
rows and clears the `characters:*` cache namespace; commit failure rolls
back, leaving rows and cache untouched, and re-raises. -/
def sync_characters_from_api (api_characters : List CharacterResponse)
    (db : List CharacterRow) (c : Cache) (commitOk : Bool) (now : Nat) :
    SyncResult × List CharacterRow × Cache :=
  if api_characters.isEmpty then (.ok 0, db, c)
  else
    let pending := api_characters.foldl (fun rows ch => upsertOne rows ch now) db
    if commitOk then
      (.ok api_characters.length, pending, clear_pattern c "characters:*")
    else
      (.error "commit failed", db, c)

/-! ### Read path (CharacterService.get_character_by_id) -/

/-- The single-character cache key f-string `character:` + id. -/
def characterCacheKey (characterId : Nat) : String :=
  "character:" ++ toString characterId

/-- Projection of a stored row to the response model, with the `or ""`
fallbacks of the source collapsed (columns here are non-null strings). -/
def toFiltered (r : CharacterRow) : FilteredCharacterResponse :=
  { id := r.id, name := r.name, status := r.status, species := r.species,
    origin_name := r.origin_name, image_url := r.image_url,
    created_at := r.created_at }

/-- CharacterService.get_character_by_id: serve from cache when the key is
present (a value of the wrong shape would fail pydantic validation and
propagate, the `.error` arm); otherwise read the row, cache the response
under `character:` + id with TTL 3600, and return it. -/
def get_character_by_id (db : List CharacterRow) (c : Cache)
    (characterId : Nat) :
    Except String (Option FilteredCharacterResponse) × Cache :=
  match cacheEntry c (characterCacheKey characterId) with
  | some (.charEntry fc, _) => (.ok (some fc), c)
  | some (.pageEntry _ _, _) => (.error "validation error", c)
  | none =>
    match findCharacter db characterId with
    | none => (.ok none, c)
    | some r =>
      (.ok (some (toFiltered r)),
       cacheSet c (characterCacheKey characterId) (.charEntry (toFiltered r)) 3600)

/-! ### Resilience wrapper: retry wiring (RickMortyClient._make_request)

The tenacity decorator on _make_request is configured with
stop_after_attempt(3) and
retry_if_exception_type((httpx.RequestError, httpx.HTTPStatusError)).
The decorated body itself, however, catches both httpx exception classes
and re-raises RickMortyAPIError, so the exceptions that escape to the
retry loop are RickMortyAPIError or a JSON decode error — neither of
which the predicate accepts. The model keeps both layers separate so that
this interaction is visible. -/

/-- Outcome of one raw HTTP attempt inside the body of _make_request. -/
inductive TransportOutcome where
  | success (data : PageData)
  | networkError (msg : String)
  | httpStatusError (code : Nat)
  | invalidJson (msg : String)
deriving Repr, DecidableEq

/-- The Python exception classes that can escape the decorated function to
the tenacity loop, plus the two httpx classes its predicate tests for
(kept to state the predicate faithfully) and tenacity's own RetryError
raised on attempt exhaustion (reraise is left at its False default). -/
inductive PyExc where
  | rickMortyAPIError (msg : String)
  | jsonDecodeError (msg : String)
  | httpRequestError (msg : String)
  | httpStatusExc (code : Nat)
  | retryError
deriving Repr, DecidableEq

/-- The body of _make_request: a 2xx response with valid JSON returns the
payload; `raise_for_status` failures and httpx request errors are caught
in the body and re-raised as RickMortyAPIError (the 429 branch
additionally sleeps 60s, a time effect with no bearing on the value);
a JSON decode failure escapes unwrapped. -/
def make_request_body : TransportOutcome → Except PyExc PageData
  | .success d => .ok d
  | .httpStatusError code =>
      .error (.rickMortyAPIError ("HTTP " ++ toString code))
  | .networkError m => .error (.rickMortyAPIError ("Request failed: " ++ m))
  | .invalidJson m => .error (.jsonDecodeError m)

/-- retry_if_exception_type((httpx.RequestError, httpx.HTTPStatusError)):
the only exceptions tenacity will retry. -/
def is_retryable_exception : PyExc → Bool
  | .httpRequestError _ => true
  | .httpStatusExc _ => true
  | _ => false

/-- stop_after_attempt argument on the decorator. -/
def stopAfterAttempt : Nat := 3

/-- The tenacity loop around the body: `transport n` is the raw outcome of
attempt `n` (1-based), `remaining` the further attempts the stop policy
allows. A success returns; a non-retryable exception is re-raised at
once; a retryable one is retried after backoff until the stop policy
triggers RetryError. Returns the result and the number of attempts made. -/
def retryAttempts (transport : Nat → TransportOutcome) :
    Nat → Nat → Except PyExc PageData × Nat
  | attemptNo, 0 =>
    match make_request_body (transport attemptNo) with
    | .ok d => (.ok d, attemptNo)
    | .error e =>
      if is_retryable_exception e then (.error .retryError, attemptNo)
      else (.error e, attemptNo)
  | attemptNo, remaining + 1 =>
    match make_request_body (transport attemptNo) with
    | .ok d => (.ok d, attemptNo)
    | .error e =>
      if is_retryable_exception e then retryAttempts transport (attemptNo + 1) remaining
      else (.error e, attemptNo)

/-- One logical call through the retry layer of _make_request: first
attempt number 1, at most stopAfterAttempt attempts in total. Second
component: how many HTTP attempts the call performed. -/
def make_request (transport : Nat → TransportOutcome) :
    Except PyExc PageData × Nat :=
  retryAttempts transport 1 (stopAfterAttempt - 1)

/-! ### Resilience wrapper: circuit breaker

Modelled from the spec: the breaker semantics live in the third-party
`circuitbreaker` package, not in this repository; only its configuration
`circuit(failure_threshold=5, recovery_timeout=30)` is in
rick_morty_client.py. The state machine below follows the spec's §4.2
description: states closed/open/half_open with a consecutive-failure
counter and an opened-at timestamp; closed→open at the failure threshold;
open→half_open once the recovery timeout has elapsed; the half-open trial
closes the breaker and resets the counter on success, reopens it and
restarts the timer on failure; while open and inside the window a call
fails fast with CircuitOpenError and performs no transport work. The
breaker observes one outcome per logical (retry-wrapped) call. -/

/-- Breaker state labels. -/
inductive BreakerPhase where
  | closed
  | opened
  | halfOpen
deriving Repr, DecidableEq

/-- CircuitBreakerState of the spec's data model. -/
structure BreakerState where
  phase : BreakerPhase
  consecutiveFailures : Nat
  openedAt : Option Nat
deriving Repr, DecidableEq

/-- circuit(failure_threshold=5, ...) on _make_request. -/
def failureThreshold : Nat := 5

/-- circuit(..., recovery_timeout=30) on _make_request. -/
def recoveryTimeout : Nat := 30

/-- Modelled from the spec: the breaker starts closed with a zero
counter. -/
def initialBreaker : BreakerState :=
  { phase := .closed, consecutiveFailures := 0, openedAt := none }

/-- What one logical call through the breaker produced. -/
inductive BreakerCallResult where
  | success
  | failure
  | circuitOpen
deriving Repr, DecidableEq

/-- Modelled from the spec: the effective state at time `now` — an open
breaker whose recovery window has elapsed admits one trial, i.e. is
half_open. -/
def effectivePhase (b : BreakerState) (now : Nat) : BreakerPhase :=
  match b.phase, b.openedAt with
  | .opened, some t => if now < t + recoveryTimeout then .opened else .halfOpen
  | p, _ => p

/-- Modelled from the spec: one logical call through the breaker at time
`now`, where `innerSucceeds` is the outcome the wrapped (retry-layer) call
would produce if it ran. Returns the next state, the caller-visible
result, and how many wrapped-call executions occurred (0 when the breaker
short-circuits). Sequential semantics: the trial call resolves before any
further call observes the state. -/
def breakerCall (b : BreakerState) (now : Nat) (innerSucceeds : Bool) :
    BreakerState × BreakerCallResult × Nat :=
  match effectivePhase b now with
  | .opened => (b, .circuitOpen, 0)
  | .halfOpen =>
    if innerSucceeds then
      ({ phase := .closed, consecutiveFailures := 0, openedAt := none },
       .success, 1)
    else
      ({ phase := .opened, consecutiveFailures := b.consecutiveFailures + 1,
         openedAt := some now }, .failure, 1)
  | .closed =>
    if innerSucceeds then
      ({ phase := .closed, consecutiveFailures := 0, openedAt := none },
       .success, 1)
    else
      let f := b.consecutiveFailures + 1
      if failureThreshold ≤ f then
        ({ phase := .opened, consecutiveFailures := f, openedAt := some now },
         .failure, 1)
      else
        ({ phase := .closed, consecutiveFailures := f, openedAt := none },
         .failure, 1)

/-- A sequence of logical calls folded through the breaker: each list
element is the time of the call and whether the wrapped call would
succeed. -/
def breakerRun (b : BreakerState) (calls : List (Nat × Bool)) : BreakerState :=
  calls.foldl (fun s c => (breakerCall s c.1 c.2).1) b

/-! ### Sample data (the spec's reference records, used by witnesses) -/

/-- Rick's origin, the spec's reference record. -/
def rickOrigin : CharacterOrigin :=
  { name := "Earth (C-137)", url := "https://rickandmortyapi.com/api/location/1" }

/-- Rick's location. -/
def citadel : CharacterLocation :=
  { name := "Citadel of Ricks", url := "https://rickandmortyapi.com/api/location/3" }

/-- The spec's reference record id=1 name="Rick Sanchez". -/
def rick : CharacterResponse :=
  { id := 1, name := "Rick Sanchez", status := "Alive", species := "Human",
    type := "", gender := "Male", origin := rickOrigin, location := citadel,
    image := "https://rickandmortyapi.com/api/character/avatar/1.jpeg",
    episode := ["https://rickandmortyapi.com/api/episode/1"],
    url := "https://rickandmortyapi.com/api/character/1", created := 0 }

/-- The spec's re-run record: same id, changed name. -/
def rickUpdated : CharacterResponse := { rick with name := "Rick Sanchez Updated" }

/-- A record whose origin is Mars (the spec's excluded reference). -/
def marsChar : CharacterResponse :=
  { rick with id := 2, name := "Morty Clone", origin := { name := "Mars", url := "" } }

/-- The empty cache. -/
def cache0 : Cache := ⟨[]⟩

/-- A fetch oracle for the crawl witnesses: page 1 carries Rick and no
next link. -/
def fetchStop : Int → FetchResult := fun _ => .ok ⟨⟨none⟩, [rick]⟩

/-- A fetch oracle whose page 1 succeeds pointing at page 2, and whose
page 2 fails upstream. -/
def fetchThenFail : Int → FetchResult := fun p =>
  if p ≤ 1 then .ok ⟨⟨some "https://rickandmortyapi.com/api/character?page=2"⟩, [rick]⟩
  else .apiError "HTTP 500"

/-! ### Theorems -/

/-- C8: a crawled item is in the client-side filter result iff its origin
name contains "earth" case-insensitively; an origin of "Mars" never
satisfies the predicate and "Earth (C-137)" always does; order is the
server-returned order (List.filter preserves it). -/
theorem filter_earth_iff :
    (∀ (l : List CharacterResponse) (c : CharacterResponse),
       c ∈ filter_earth_characters l ↔ c ∈ l ∧ earthOrigin c = true) ∧
    (∀ c : CharacterResponse, c.origin.name = "Mars" → earthOrigin c = false) ∧
    (∀ c : CharacterResponse, c.origin.name = "Earth (C-137)" → earthOrigin c = true) := by
  refine ⟨fun l c => ?_, fun c h => ?_, fun c h => ?_⟩
  · simp [filter_earth_characters, List.mem_filter]
  · simp [earthOrigin, h]; decide
  · simp [earthOrigin, h]; decide

/-- Witness for C8 at the reference records: Mars is dropped and Rick is
kept by the filter. -/
theorem filter_earth_iff_witness :
    (marsChar.origin.name = "Mars" ∧ earthOrigin marsChar = false) ∧
    (rick.origin.name = "Earth (C-137)" ∧ earthOrigin rick = true) ∧
    (rick ∈ filter_earth_characters [rick, marsChar] ↔
       rick ∈ [rick, marsChar] ∧ earthOrigin rick = true) :=
  ⟨⟨rfl, filter_earth_iff.2.1 marsChar rfl⟩,
   ⟨rfl, by
      have h := filter_earth_iff.2.2 rick rfl
      exact h⟩,
   filter_earth_iff.1 [rick, marsChar] rick⟩

/-- C9: syncing an empty crawl result is a no-op success — it returns 0
and leaves every persisted row and every cache entry exactly as it was,
whatever the commit oracle would have done. -/
theorem sync_empty_is_noop (db : List CharacterRow) (c : Cache)
    (commitOk : Bool) (now : Nat) :
    sync_characters_from_api [] db c commitOk now = (.ok 0, db, c) := rfl

/-- C1 (code bug): the retry policy of _make_request never retries. The
body catches httpx.RequestError and httpx.HTTPStatusError and re-raises
RickMortyAPIError, so the exceptions reaching tenacity never satisfy
retry_if_exception_type((httpx.RequestError, httpx.HTTPStatusError)):
every logical call performs exactly one HTTP attempt, for every possible
transport behavior; in particular a persistently failing transport
surfaces RickMortyAPIError after a single attempt instead of being
retried up to the configured 3 attempts. -/
theorem make_request_never_retries :
    (∀ transport : Nat → TransportOutcome, (make_request transport).2 = 1) ∧
    make_request (fun _ => .networkError "connection reset") =
      (.error (.rickMortyAPIError "Request failed: connection reset"), 1) ∧
    make_request (fun _ => .httpStatusError 500) =
      (.error (.rickMortyAPIError "HTTP 500"), 1) ∧
    make_request (fun n => if n < 3 then .networkError "refused"
                           else .success ⟨⟨none⟩, []⟩) =
      (.error (.rickMortyAPIError "Request failed: refused"), 1) := by
  refine ⟨fun transport => ?_, rfl, rfl, rfl⟩
  cases h : transport 1 <;>
    simp [make_request, retryAttempts, make_request_body,
          is_retryable_exception, stopAfterAttempt, h]

/-- C5: the crawl never raises (its Lean type returns a plain list) and a
RickMortyAPIError from a page fetch — retries and breaker exhausted —
makes it return exactly what it had accumulated from the previously
processed pages, in order. -/
theorem crawl_error_truncates (fetch : Int → FetchResult) (fuel : Nat)
    (page : Int) (acc : List CharacterResponse) (msg : String)
    (h : fetch page = .apiError msg) :
    get_all_filtered_characters fetch (fuel + 1) page acc = acc := by
  simp [get_all_filtered_characters, h]

/-- Witness for C5: page 1 succeeds with Rick and advertises page 2,
page 2 fails upstream — the crawl returns just page 1's filtered items. -/
theorem crawl_error_truncates_witness :
    fetchThenFail 2 = .apiError "HTTP 500" ∧
    get_all_filtered_characters fetchThenFail 5 2 (filter_earth_characters [rick])
      = filter_earth_characters [rick] ∧
    get_all_filtered_characters fetchThenFail 6 1 [] = [rick] :=
  ⟨rfl,
   crawl_error_truncates fetchThenFail 4 2 (filter_earth_characters [rick])
     "HTTP 500" rfl,
   by decide⟩

/-- C4: the anti-loop property of the crawl. First, the extractor only
ever proposes a strictly larger page: whenever the next-page link is
absent (or falsy), its page parameter unparseable, or parses to a number
not strictly greater than the current page, it yields `none` — stated
contrapositively as `some n` forcing `current < n`. Second, at any page
whose extraction yields `none`, the crawl returns the items accumulated
so far (previous pages plus the current page's filtered items) no matter
how much fuel remains, i.e. it terminates there rather than looping. -/
theorem crawl_stops_on_non_advancing_next :
    (∀ (d : PageData) (p n : Int),
       extract_next_page_number d p = some n → p < n) ∧
    (∀ (fetch : Int → FetchResult) (fuel : Nat) (p : Int)
       (acc : List CharacterResponse) (d : PageData),
       fetch p = .ok d → d.results.isEmpty = false →
       extract_next_page_number d p = none →
       get_all_filtered_characters fetch (fuel + 1) p acc
         = acc ++ filter_earth_characters d.results) := by
  constructor
  · intro d p n h
    simp only [extract_next_page_number] at h
    split at h
    · exact absurd h (by simp)
    · split at h
      · exact absurd h (by simp)
      · split at h
        · exact absurd h (by simp)
        · split at h
          · exact absurd h (by simp)
          · rename_i m hm hle
            rw [Option.some_inj] at h
            omega
  · intro fetch fuel p acc d hf hres hext
    simp [get_all_filtered_characters, hf, hres, hext]

/-- Witness for C4: with the link advertising page 2 from page 1 the
extractor proposes a strictly larger page, and at a page with no next
link the crawl stops with the accumulated items regardless of remaining
fuel. -/
theorem crawl_stops_on_non_advancing_next_witness :
    (1 : Int) < 2 ∧
    get_all_filtered_characters fetchStop 7 1 [] = [] ++ filter_earth_characters [rick] :=
  ⟨crawl_stops_on_non_advancing_next.1
     ⟨⟨some "https://rickandmortyapi.com/api/character?page=2"⟩, [rick]⟩ 1 2 (by decide),
   crawl_stops_on_non_advancing_next.2 fetchStop 6 1 [] ⟨⟨none⟩, [rick]⟩ rfl rfl rfl⟩

/-- C6: sync resolves each crawled record by primary-key lookup. When no
row carries the record's id, a fresh row (bookkeeping timestamps set to
now) is appended and the call returns 1 for that record; when a row
exists, it is overwritten in place — the row set is a `map` touching only
the matching id, so the row count is unchanged and no id gains or loses a
row (no duplicate is created) — and the call returns 1 as well, the
count of records inserted plus updated. -/
theorem sync_upserts_by_id (ch : CharacterResponse) (db : List CharacterRow)
    (c : Cache) (now : Nat) :
    (findCharacter db ch.id = none →
       sync_characters_from_api [ch] db c true now =
         (.ok 1, db ++ [newRow ch now], clear_pattern c "characters:*")) ∧
    (∀ r, findCharacter db ch.id = some r →
       sync_characters_from_api [ch] db c true now =
         (.ok 1, db.map (fun x => if x.id == ch.id then updateRow x ch now else x),
          clear_pattern c "characters:*") ∧
       (db.map (fun x => if x.id == ch.id then updateRow x ch now else x)).length
         = db.length ∧
       (∀ i, (db.map (fun x => if x.id == ch.id then updateRow x ch now else x)).countP
               (fun x => x.id == i)
           = db.countP (fun x => x.id == i))) := by
  constructor
  · intro h
    simp [sync_characters_from_api, upsertOne, h]
  · intro r h
    refine ⟨by simp [sync_characters_from_api, upsertOne, h],
            List.length_map _ _, fun i => ?_⟩
    rw [List.countP_map]
    refine List.countP_congr (fun x _ => ?_)
    by_cases hx : x.id = ch.id <;> simp [Function.comp, hx, updateRow]

/-- Witness for C6, the spec's two-step scenario: syncing Rick into an
empty store inserts exactly one row and returns 1; re-syncing the same id
with the changed name returns 1, leaves exactly one row, updates its name
in place and keeps its original created_at. -/
theorem sync_upserts_by_id_witness :
    (findCharacter [] rick.id = none ∧
     sync_characters_from_api [rick] [] cache0 true 50 =
       (.ok 1, [] ++ [newRow rick 50], clear_pattern cache0 "characters:*")) ∧
    (findCharacter [newRow rick 50] rickUpdated.id = some (newRow rick 50) ∧
     sync_characters_from_api [rickUpdated] [newRow rick 50] cache0 true 60 =
       (.ok 1,
        [newRow rick 50].map
          (fun x => if x.id == rickUpdated.id then updateRow x rickUpdated 60 else x),
        clear_pattern cache0 "characters:*") ∧
     [newRow rick 50].map
       (fun x => if x.id == rickUpdated.id then updateRow x rickUpdated 60 else x)
       = [updateRow (newRow rick 50) rickUpdated 60] ∧
     (updateRow (newRow rick 50) rickUpdated 60).name = "Rick Sanchez Updated" ∧
     (updateRow (newRow rick 50) rickUpdated 60).created_at = 50) :=
  ⟨⟨rfl, (sync_upserts_by_id rick [] cache0 50).1 rfl⟩,
   ⟨rfl,
    ((sync_upserts_by_id rickUpdated [newRow rick 50] cache0 60).2
       (newRow rick 50) rfl).1,
    rfl, rfl, rfl⟩⟩

/-- C7: when committing a nonempty sync batch fails, the whole batch is
rolled back — the persisted rows equal their pre-sync state and the cache
is untouched (invalidation only runs after a successful commit) — and the
failure propagates to the caller as the error result. -/
theorem sync_commit_failure_rolls_back (api : List CharacterResponse)
    (db : List CharacterRow) (c : Cache) (now : Nat) (h : api ≠ []) :
    sync_characters_from_api api db c false now =
      (.error "commit failed", db, c) := by
  simp [sync_characters_from_api, h]

/-- Witness for C7: a failing commit while syncing Rick over an existing
store leaves the store and cache exactly as they were and surfaces the
error. -/
theorem sync_commit_failure_rolls_back_witness :
    [rick] ≠ ([] : List CharacterResponse) ∧
    sync_characters_from_api [rick] [newRow rick 50] cache0 false 60 =
      (.error "commit failed", [newRow rick 50], cache0) :=
  ⟨by simp,
   sync_commit_failure_rolls_back [rick] [newRow rick 50] cache0 60 (by simp)⟩

/-- C2: reaching the failure threshold of 5 consecutive failures flips
the breaker from closed to open (recording the trip time), a whole run of
5 consecutive failing logical calls from the initial breaker lands in
that open state, and every call while open and strictly inside the
30-second recovery window returns CircuitOpenError at once with zero
wrapped-call (hence zero transport) executions and an unchanged state. -/
theorem breaker_opens_at_threshold_and_fails_fast :
    (∀ (b : BreakerState) (now : Nat), b.phase = .closed →
       b.consecutiveFailures + 1 = failureThreshold →
       (breakerCall b now false).1 =
         { phase := .opened, consecutiveFailures := failureThreshold,
           openedAt := some now } ∧
       (breakerCall b now false).2.1 = .failure) ∧
    breakerRun initialBreaker
      [(0, false), (1, false), (2, false), (3, false), (4, false)] =
      { phase := .opened, consecutiveFailures := 5, openedAt := some 4 } ∧
    (∀ (b : BreakerState) (t now : Nat) (inner : Bool), b.phase = .opened →
       b.openedAt = some t → now < t + recoveryTimeout →
       breakerCall b now inner = (b, .circuitOpen, 0)) := by
  refine ⟨?_, rfl, ?_⟩
  · intro b now h1 h2
    constructor <;> simp [breakerCall, effectivePhase, h1, h2]
  · intro b t now inner h1 h2 h3
    simp [breakerCall, effectivePhase, h1, h2, h3]

/-- Witness for C2: a closed breaker at 4 consecutive failures opens on
the 5th, and the resulting open breaker rejects a call inside the window
without running it. -/
theorem breaker_opens_at_threshold_and_fails_fast_witness :
    (BreakerState.mk .closed 4 none).phase = .closed ∧
    4 + 1 = failureThreshold ∧
    ((breakerCall ⟨.closed, 4, none⟩ 9 false).1 =
       { phase := .opened, consecutiveFailures := failureThreshold,
         openedAt := some 9 } ∧
     (breakerCall ⟨.closed, 4, none⟩ 9 false).2.1 = .failure) ∧
    breakerCall ⟨.opened, 5, some 9⟩ 20 true =
      (⟨.opened, 5, some 9⟩, .circuitOpen, 0) :=
  ⟨rfl, rfl,
   breaker_opens_at_threshold_and_fails_fast.1 ⟨.closed, 4, none⟩ 9 rfl rfl,
   breaker_opens_at_threshold_and_fails_fast.2.2 ⟨.opened, 5, some 9⟩ 9 20 true
     rfl rfl (by decide)⟩

/-- C3: once the recovery window of an open breaker has elapsed, the
breaker is effectively half_open and the next call is the single trial:
it executes the wrapped call exactly once; a successful trial closes the
breaker and resets the consecutive-failure counter to 0; a failing trial
reopens it with the timer restarted at the trial's time, so that every
call strictly within the restarted window again fails fast with
CircuitOpenError and zero executions (the trial was the only call let
through). -/
theorem breaker_half_open_single_trial (b : BreakerState) (t now : Nat)
    (h1 : b.phase = .opened) (h2 : b.openedAt = some t)
    (h3 : t + recoveryTimeout ≤ now) :
    effectivePhase b now = .halfOpen ∧
    breakerCall b now true =
      ({ phase := .closed, consecutiveFailures := 0, openedAt := none },
       .success, 1) ∧
    breakerCall b now false =
      ({ phase := .opened, consecutiveFailures := b.consecutiveFailures + 1,
         openedAt := some now }, .failure, 1) ∧
    (∀ (now2 : Nat) (inner : Bool), now2 < now + recoveryTimeout →
       breakerCall (breakerCall b now false).1 now2 inner
         = ((breakerCall b now false).1, .circuitOpen, 0)) := by
  have hlt : ¬ now < t + recoveryTimeout := by omega
  refine ⟨by simp [effectivePhase, h1, h2, hlt], ?_, ?_, ?_⟩
  · simp [breakerCall, effectivePhase, h1, h2, hlt]
  · simp [breakerCall, effectivePhase, h1, h2, hlt]
  · intro now2 inner hnow2
    simp [breakerCall, effectivePhase, h1, h2, hlt, hnow2]

/-- Witness for C3 at a breaker opened at t=4 and probed at t=34: the
window has elapsed, a successful trial closes it with a zero counter, a
failing trial reopens it stamped 34, and a call at t=40 inside the
restarted window is rejected without execution. -/
theorem breaker_half_open_single_trial_witness :
    4 + recoveryTimeout ≤ 34 ∧
    effectivePhase ⟨.opened, 5, some 4⟩ 34 = .halfOpen ∧
    breakerCall ⟨.opened, 5, some 4⟩ 34 true = (⟨.closed, 0, none⟩, .success, 1) ∧
    breakerCall ⟨.opened, 5, some 4⟩ 34 false = (⟨.opened, 6, some 34⟩, .failure, 1) ∧
    breakerCall (breakerCall ⟨.opened, 5, some 4⟩ 34 false).1 40 true
      = ((breakerCall ⟨.opened, 5, some 4⟩ 34 false).1, .circuitOpen, 0) :=
  ⟨by decide,
   (breaker_half_open_single_trial ⟨.opened, 5, some 4⟩ 4 34 rfl rfl (by decide)).1,
   (breaker_half_open_single_trial ⟨.opened, 5, some 4⟩ 4 34 rfl rfl (by decide)).2.1,
   (breaker_half_open_single_trial ⟨.opened, 5, some 4⟩ 4 34 rfl rfl (by decide)).2.2.1,
   (breaker_half_open_single_trial ⟨.opened, 5, some 4⟩ 4 34 rfl rfl (by decide)).2.2.2
     40 true (by decide)⟩

/-- The clear_pattern glob for the listing namespace never matches a
single-character key: the pattern requires the literal prefix
"rickmorty:characters:" while every single-character key continues with
":" after "rickmorty:character". -/
theorem globMatch_characters_pattern_miss (s : List Char) :
    globMatch "rickmorty:characters:*".data ("rickmorty:character:".data ++ s)
      = false := rfl

/-- find? for a key is unaffected by filtering out entries a predicate
flags, provided the key itself is not flagged. -/
theorem find?_filter_unmatched (l : List (String × CacheVal × Nat))
    (key : String) (bad : String → Bool) (hkey : bad key = false) :
    (l.filter (fun e => !(bad e.1))).find? (fun e => e.1 == key)
      = l.find? (fun e => e.1 == key) := by
  induction l with
  | nil => rfl
  | cons e l ih =>
    by_cases he : e.1 = key
    · have hb : bad e.1 = false := by rw [he]; exact hkey
      simp [List.filter_cons, hb, he, hkey]
    · cases hb : bad e.1 with
      | false => simp [List.filter_cons, hb, he, ih]
      | true => simp [List.filter_cons, hb, he, ih]

/-- The namespaced single-character key, as a character list. -/
theorem characterKey_data (i : Nat) :
    (cacheNamespace ++ characterCacheKey i).data
      = "rickmorty:character:".data ++ (toString i).data := by
  simp only [cacheNamespace, characterCacheKey, String.data_append,
    ← List.append_assoc]
  rfl

/-- Clearing the characters listing namespace leaves every
single-character cache entry in place. -/
theorem clear_pattern_keeps_character_keys (c : Cache) (i : Nat) :
    cacheEntry (clear_pattern c "characters:*") (characterCacheKey i)
      = cacheEntry c (characterCacheKey i) := by
  unfold cacheEntry clear_pattern
  have hkey : (fun k => globMatch (cacheNamespace ++ "characters:*").data k.data)
      (cacheNamespace ++ characterCacheKey i) = false := by
    show globMatch (cacheNamespace ++ "characters:*").data
      (cacheNamespace ++ characterCacheKey i).data = false
    rw [characterKey_data]
    exact globMatch_characters_pattern_miss _
  exact congrArg (Option.map _)
    (find?_filter_unmatched c.entries (cacheNamespace ++ characterCacheKey i)
      (fun k => globMatch (cacheNamespace ++ "characters:*").data k.data) hkey)

/-- C10: sync's post-commit invalidation clears only the
`characters:` listing namespace, so for every sync call and every id the
cache entry under `character:` + id (value and TTL) is exactly what it
was before the sync; concretely, a get_character_by_id that cached Rick
under that key with TTL 3600 before a name-changing sync still serves the
pre-sync name from the cache after the sync committed the new name. -/
theorem sync_preserves_single_character_cache :
    (∀ (api : List CharacterResponse) (db : List CharacterRow) (c : Cache)
       (commitOk : Bool) (now i : Nat),
       cacheEntry (sync_characters_from_api api db c commitOk now).2.2
         (characterCacheKey i)
         = cacheEntry c (characterCacheKey i)) ∧
    get_character_by_id [newRow rick 50] cache0 1 =
      (.ok (some (toFiltered (newRow rick 50))),
       cacheSet cache0 (characterCacheKey 1)
         (.charEntry (toFiltered (newRow rick 50))) 3600) ∧
    cacheEntry (cacheSet cache0 (characterCacheKey 1)
        (.charEntry (toFiltered (newRow rick 50))) 3600) (characterCacheKey 1)
      = some (.charEntry (toFiltered (newRow rick 50)), 3600) ∧
    get_character_by_id
      (sync_characters_from_api [rickUpdated] [newRow rick 50]
        (cacheSet cache0 (characterCacheKey 1)
          (.charEntry (toFiltered (newRow rick 50))) 3600) true 60).2.1
      (sync_characters_from_api [rickUpdated] [newRow rick 50]
        (cacheSet cache0 (characterCacheKey 1)
          (.charEntry (toFiltered (newRow rick 50))) 3600) true 60).2.2 1
      = (.ok (some (toFiltered (newRow rick 50))),
         (sync_characters_from_api [rickUpdated] [newRow rick 50]
           (cacheSet cache0 (characterCacheKey 1)
             (.charEntry (toFiltered (newRow rick 50))) 3600) true 60).2.2) ∧
    (toFiltered (newRow rick 50)).name = "Rick Sanchez" ∧
    (findCharacter
      (sync_characters_from_api [rickUpdated] [newRow rick 50]
        (cacheSet cache0 (characterCacheKey 1)
          (.charEntry (toFiltered (newRow rick 50))) 3600) true 60).2.1 1).map
        CharacterRow.name
      = some "Rick Sanchez Updated" := by
  refine ⟨?_, rfl, rfl, rfl, rfl, rfl⟩
  intro api db c commitOk now i
  by_cases h1 : api.isEmpty <;> by_cases h2 : commitOk <;>
    simp [sync_characters_from_api, h1, h2, clear_pattern_keeps_character_keys]

end RickMorty
